/-
Verification of the benchmark-driver job scheduler (data/benchmarks/benchmark.py):
the quantum computation in `worker`, the IPUSemaphore resource pool, the
task-queue drain accounting, the worker loop, and `run_program`.

The Python code is shallowly embedded: pure computations become Lean
functions, the effects of the external environment (filesystem, child
process) become explicit outcome parameters, and the concurrent parts
(semaphore, task queue, worker pool) become labelled transition systems
whose reachable states we reason about by induction.
-/
import Mathlib

/-! ## Quantum computation (worker, lines 44-46)

The worker computes
  `ipus_needed = math.ceil(numTiles / 1472)`
  `ipus_needed = 4 * math.ceil(ipus_needed / 4)`
We embed `math.ceil(a / b)` for positive natural `b` as exact ceiling
division on naturals. -/

/-- Ceiling division on naturals: `math.ceil(a / b)` for `b > 0`. -/
def ceilDivNat (a b : Nat) : Nat := (a + b - 1) / b

/-- Embeds the worker's quantum computation (benchmark.py lines 44-46):
`ipus_needed = math.ceil(numTiles / 1472)` followed by
`ipus_needed = 4 * math.ceil(ipus_needed / 4)`. -/
def ipusNeeded (numTiles : Nat) : Nat :=
  4 * ceilDivNat (ceilDivNat numTiles 1472) 4

/-- Spec-side definition (for the refinement comparison in C1):
`roundUpToMultiple(x, g)` is the least multiple of `g` that is `≥ x`,
computed as `g * ceil(x / g)`. -/
def roundUpToMultiple (x g : Nat) : Nat := g * ceilDivNat x g

theorem ceilDivNat_pos (a b : Nat) (ha : 0 < a) (hb : 0 < b) :
    0 < ceilDivNat a b := by
  have hle : 1 * b ≤ a + b - 1 := by omega
  have := (Nat.le_div_iff_mul_le hb).mpr hle
  simpa [ceilDivNat] using this

/-- C1: for every positive tileCount, the quantum the worker computes equals
`roundUpToMultiple(ceil(tileCount / 1472), 4)`; the listed sample points give
4, 4, 4, 4, 8; and the result is always a positive multiple of 4. -/
theorem C1_quantum (t : Nat) (h : 0 < t) :
    ipusNeeded t = roundUpToMultiple (ceilDivNat t 1472) 4 ∧
    ipusNeeded 1 = 4 ∧ ipusNeeded 1472 = 4 ∧ ipusNeeded 1473 = 4 ∧
    ipusNeeded 5888 = 4 ∧ ipusNeeded 5889 = 8 ∧
    0 < ipusNeeded t ∧ ipusNeeded t % 4 = 0 := by
  refine ⟨rfl, by decide, by decide, by decide, by decide, by decide, ?_, ?_⟩
  · have h1 : 0 < ceilDivNat t 1472 := ceilDivNat_pos t 1472 h (by decide)
    have h2 : 0 < ceilDivNat (ceilDivNat t 1472) 4 := ceilDivNat_pos _ 4 h1 (by decide)
    unfold ipusNeeded
    omega
  · unfold ipusNeeded
    exact Nat.mul_mod_right 4 _

/-- Witness for C1 at tileCount = 5889. -/
theorem C1_quantum_witness :
    ipusNeeded 5889 = roundUpToMultiple (ceilDivNat 5889 1472) 4 ∧
    0 < ipusNeeded 5889 ∧ ipusNeeded 5889 % 4 = 0 := by
  have h := C1_quantum 5889 (by decide)
  exact ⟨h.1, h.2.2.2.2.2.2.1, h.2.2.2.2.2.2.2⟩

/-! ## IPUSemaphore (benchmark.py lines 58-82)

`IPUSemaphore` holds `total_ipus` and `available_ipus` guarded by a
condition monitor.  Entering an `IPUContext` waits while
`available_ipus < ipus_needed`, then subtracts `ipus_needed`; exiting
adds it back and wakes all waiters.  We model the pool as a transition
system: a state records the (integer) available count and the multiset
of units held by in-flight acquisitions; an acquire transition fires
only when the wait predicate is satisfied, and a release transition
returns the units of one in-flight acquisition. -/

/-- State of the IPU pool: `avail` mirrors `available_ipus`, `held` is the
multiset of `ipus_needed` values of in-flight (entered, not yet exited)
contexts. -/
structure SemState where
  avail : Int
  held : Multiset Nat

/-- The condition under which `IPUContext.__enter__`s wait loop
(`while available_ipus < ipus_needed: wait()`) lets the caller proceed. -/
def canProceed (s : SemState) (n : Nat) : Prop := (n : Int) ≤ s.avail

instance (s : SemState) (n : Nat) : Decidable (canProceed s n) := by
  unfold canProceed; infer_instance

/-- One monitor-protected transition of the pool: either an `__enter__`
completes (wait predicate holds, `available_ipus -= ipus_needed`) or an
`__exit__` of an in-flight acquisition runs
(`available_ipus += ipus_needed`). -/
inductive SemStep : SemState → SemState → Prop where
  | acquire (s : SemState) (n : Nat) (h : canProceed s n) :
      SemStep s ⟨s.avail - n, n ::ₘ s.held⟩
  | release (s : SemState) (n : Nat) (h : n ∈ s.held) :
      SemStep s ⟨s.avail + n, s.held.erase n⟩

/-- States reachable from a freshly constructed `IPUSemaphore(total)`
(`available_ipus = total_ipus`, nothing in flight) by any interleaving of
acquires and matching releases. -/
inductive SemReachable (total : Nat) : SemState → Prop where
  | init : SemReachable total ⟨total, 0⟩
  | step {s t : SemState} : SemReachable total s → SemStep s t →
      SemReachable total t

theorem sem_invariant (total : Nat) (s : SemState)
    (h : SemReachable total s) :
    0 ≤ s.avail ∧ s.avail + (s.held.sum : Int) = total := by
  induction h with
  | init => simp
  | @step t u hr hs ih =>
    obtain ⟨ih0, ihsum⟩ := ih
    cases hs with
    | acquire n hn =>
      unfold canProceed at hn
      refine ⟨?_, ?_⟩
      · show 0 ≤ t.avail - (n : Int)
        omega
      · show t.avail - (n : Int) + ((n ::ₘ t.held).sum : Int) = total
        rw [Multiset.sum_cons, Nat.cast_add]
        omega
    | release n hn =>
      have hc : n ::ₘ t.held.erase n = t.held := Multiset.cons_erase hn
      have hsum : n + (t.held.erase n).sum = t.held.sum := by
        conv_rhs => rw [← hc, Multiset.sum_cons]
      refine ⟨?_, ?_⟩
      · show 0 ≤ t.avail + (n : Int)
        omega
      · show t.avail + (n : Int) + ((t.held.erase n).sum : Int) = total
        omega

/-- C3: in every state reachable by an interleaving of acquires and
matching releases, `available_ipus` stays within `[0, total_ipus]`, and
`total_ipus - available_ipus` equals the sum of units held by in-flight
acquisitions. -/
theorem C3_pool_invariant (total : Nat) (s : SemState)
    (h : SemReachable total s) :
    0 ≤ s.avail ∧ s.avail ≤ total ∧
      (total : Int) - s.avail = (s.held.sum : Int) := by
  obtain ⟨h0, hsum⟩ := sem_invariant total s h
  have hnn : (0 : Int) ≤ (s.held.sum : Int) := Int.natCast_nonneg _
  exact ⟨h0, by omega, by omega⟩

/-- Witness for C3: the initial state of a 16-unit pool. -/
theorem C3_pool_invariant_witness :
    0 ≤ (⟨16, 0⟩ : SemState).avail ∧ (⟨16, 0⟩ : SemState).avail ≤ (16 : Nat) ∧
      ((16 : Nat) : Int) - (⟨16, 0⟩ : SemState).avail =
        ((⟨16, 0⟩ : SemState).held.sum : Int) :=
  C3_pool_invariant 16 ⟨16, 0⟩ SemReachable.init

/-- C7: when `n > total_ipus`, the wait predicate of
`IPUContext.__enter__` is false in every reachable state, so an
`acquire(n)` can never complete (the caller waits forever). -/
theorem C7_oversized_acquire_blocks (total n : Nat) (s : SemState)
    (h : SemReachable total s) (hn : total < n) :
    ¬ canProceed s n := by
  obtain ⟨h0, hsum⟩ := sem_invariant total s h
  have hnn : (0 : Int) ≤ (s.held.sum : Int) := Int.natCast_nonneg _
  unfold canProceed
  omega

/-- Witness for C7: a 17-unit request against a fresh 16-unit pool. -/
theorem C7_oversized_acquire_blocks_witness :
    ¬ canProceed ⟨16, 0⟩ 17 :=
  C7_oversized_acquire_blocks 16 17 ⟨16, 0⟩ SemReachable.init (by decide)

/-! ## Task-queue drain accounting (benchmark.py lines 41-55 and 155)

`queue.Queue` keeps an unfinished-task count: `put` increments it,
`task_done` decrements it, and `join` blocks until it is zero.  A worker
dequeues a job, runs it, on failure `put`s the job back (benchmark.py
line 53) and only afterwards calls `task_done` (line 55).  We model the
counters: `queued` items sitting in the backing list, `running` attempts
dequeued but not yet decided, `toMark` attempts decided (any retry
already re-enqueued) but not yet `task_done`ed, and the queue's
`unfinished` count. -/

/-- Counters of the task queue together with worker progress: `queued`
jobs in the backing list, `running` in-flight attempts before the
failure check, `toMark` attempts past the failure check (a failed one
has already been re-enqueued) awaiting `task_done`, and the queue's
internal `unfinished` count that `join` waits on. -/
structure QState where
  queued : Nat
  running : Nat
  toMark : Nat
  unfinished : Nat
  deriving DecidableEq

/-- The transitions of the queue/worker protocol:
`enqueue` is the driver seeding a job (`put`: unfinished += 1);
`dequeue` is a worker's `task_queue.get()`;
`failRequeue` is a failed attempt's `task_queue.put(...)` (line 53),
which happens before that attempt's `task_done`;
`succeed` is a successful attempt passing the failure check;
`markDone` is `task_queue.task_done()` (line 55). -/
inductive QStep : QState → QState → Prop where
  | enqueue (s : QState) :
      QStep s ⟨s.queued + 1, s.running, s.toMark, s.unfinished + 1⟩
  | dequeue (s : QState) (h : 0 < s.queued) :
      QStep s ⟨s.queued - 1, s.running + 1, s.toMark, s.unfinished⟩
  | failRequeue (s : QState) (h : 0 < s.running) :
      QStep s ⟨s.queued + 1, s.running - 1, s.toMark + 1, s.unfinished + 1⟩
  | succeed (s : QState) (h : 0 < s.running) :
      QStep s ⟨s.queued, s.running - 1, s.toMark + 1, s.unfinished⟩
  | markDone (s : QState) (h : 0 < s.toMark) :
      QStep s ⟨s.queued, s.running, s.toMark - 1, s.unfinished - 1⟩

/-- Queue states reachable from the empty queue by any interleaving of
seeding, worker dequeues, retries and completions. -/
inductive QReachable : QState → Prop where
  | init : QReachable ⟨0, 0, 0, 0⟩
  | step {s t : QState} : QReachable s → QStep s t → QReachable t

theorem qstate_invariant (s : QState) (h : QReachable s) :
    s.unfinished = s.queued + s.running + s.toMark := by
  induction h with
  | init => rfl
  | @step t u hr hs ih =>
    cases hs with
    | enqueue => simp only; omega
    | dequeue h => simp only; omega
    | failRequeue h => simp only; omega
    | succeed h => simp only; omega
    | markDone h => simp only; omega

/-- C2: the unfinished count that `task_queue.join()` waits on always
equals the number of queued jobs (originals and retries) plus the number
of in-flight attempts; because a failed attempt's re-enqueue happens
before its `task_done`, the count cannot be zero while a queued job or
an attempt (including any retry) is outstanding — so `join` returns only
after every enqueued and re-enqueued job has reported completion. -/
theorem C2_drain_accounting (s : QState) (h : QReachable s) :
    s.unfinished = s.queued + s.running + s.toMark ∧
      (s.unfinished = 0 →
        s.queued = 0 ∧ s.running = 0 ∧ s.toMark = 0) := by
  have hinv := qstate_invariant s h
  exact ⟨hinv, fun h0 => by omega⟩

/-- Witness for C2: the state after seeding one job, dequeuing it,
failing it (retry re-enqueued) and marking the first attempt done. -/
theorem C2_drain_accounting_witness :
    (⟨1, 0, 0, 1⟩ : QState).unfinished =
        (⟨1, 0, 0, 1⟩ : QState).queued + (⟨1, 0, 0, 1⟩ : QState).running +
          (⟨1, 0, 0, 1⟩ : QState).toMark ∧
      ((⟨1, 0, 0, 1⟩ : QState).unfinished = 0 →
        (⟨1, 0, 0, 1⟩ : QState).queued = 0 ∧
          (⟨1, 0, 0, 1⟩ : QState).running = 0 ∧
          (⟨1, 0, 0, 1⟩ : QState).toMark = 0) :=
  C2_drain_accounting ⟨1, 0, 0, 1⟩
    (QReachable.step
      (QReachable.step
        (QReachable.step
          (QReachable.step QReachable.init (QStep.enqueue ⟨0, 0, 0, 0⟩))
          (QStep.dequeue ⟨1, 0, 0, 1⟩ (by decide)))
        (QStep.failRequeue ⟨0, 1, 0, 1⟩ (by decide)))
      (QStep.markDone ⟨1, 0, 1, 2⟩ (by decide)))

/-! ## Order of events in one worker-loop iteration (benchmark.py 41-55)

One iteration of the worker loop performs, in program order:
`IPUContext.__enter__` (acquire), the `run_program` call, on failure the
`task_queue.put(...)` — which sits INSIDE the `with` block — then
`IPUContext.__exit__` (release) when the block is left, and finally
`task_queue.task_done()`.  We record the iteration as the list of these
events. -/

/-- The observable events of one worker-loop iteration. -/
inductive WorkerEv where
  | acquire (n : Nat)
  | runJob
  | requeue
  | release (n : Nat)
  | markDone
  deriving DecidableEq, BEq, Repr

/-- The events of one worker-loop iteration with quantum `n`, in the
order the source performs them: enter the `IPUContext`, run the job, on
failure `put` the job back (still inside the `with` block), leave the
context (release), then `task_done`. -/
def workerIterEvents (n : Nat) (success : Bool) : List WorkerEv :=
  [WorkerEv.acquire n, WorkerEv.runJob] ++
    (if success then [] else [WorkerEv.requeue]) ++
    [WorkerEv.release n, WorkerEv.markDone]

/-- C4 counterexample: on a failing attempt (quantum 4) the re-enqueue
does NOT come after the release — `requeue` is at index 2 and
`release` at index 3, because the retry `put` is inside the `with`
block.  The claim that the worker releases first and re-enqueues
afterwards is therefore false. -/
theorem C4_counterexample :
    workerIterEvents 4 false =
      [WorkerEv.acquire 4, WorkerEv.runJob, WorkerEv.requeue,
        WorkerEv.release 4, WorkerEv.markDone] ∧
    ¬ (workerIterEvents 4 false).indexOf (WorkerEv.release 4) <
        (workerIterEvents 4 false).indexOf WorkerEv.requeue := by
  constructor
  · rfl
  · decide

/-- C4 amended: the release does happen unconditionally (the `release`
event occurs whether the attempt succeeded or failed), but on a failing
attempt the worker re-enqueues the job first, while still holding the
quantum, and releases only afterwards. -/
theorem C4_amended_requeue_before_release (n : Nat) (success : Bool) :
    WorkerEv.release n ∈ workerIterEvents n success ∧
      (success = false →
        ∃ pre mid post, workerIterEvents n success =
          pre ++ [WorkerEv.requeue] ++ mid ++ [WorkerEv.release n] ++ post) := by
  constructor
  · cases success <;> simp [workerIterEvents]
  · intro hf
    subst hf
    exact ⟨[WorkerEv.acquire n, WorkerEv.runJob], [], [WorkerEv.markDone], rfl⟩

/-- Witness for the amended C4 at quantum 4 on a failing attempt. -/
theorem C4_amended_witness :
    WorkerEv.release 4 ∈ workerIterEvents 4 false ∧
      ((false : Bool) = false →
        ∃ pre mid post, workerIterEvents 4 false =
          pre ++ [WorkerEv.requeue] ++ mid ++ [WorkerEv.release 4] ++ post) :=
  C4_amended_requeue_before_release 4 false

/-! ## Worker-pool loop termination (benchmark.py lines 41-43)

Each worker runs `while not task_queue.empty():`.  The emptiness test is
an instantaneous observation of the backing list; nothing prevents a
worker from observing the queue empty — and leaving its loop — while
another worker still holds the last job and is about to re-enqueue it
after a failure.  We model the pool: a state holds the backing list of
jobs and one phase per worker thread. -/

/-- Phase of one worker thread: at the top-of-loop emptiness check,
busy with a dequeued job, or out of the loop. -/
inductive WPhase where
  | check
  | busy (j : Nat)
  | stopped
  deriving DecidableEq, Repr

/-- Worker-pool state: the queue's backing list of jobs (jobs are
identified by a number) and the phase of each worker thread. -/
structure WState where
  queue : List Nat
  workers : List WPhase
  deriving DecidableEq, Repr

/-- Interleaved transitions of the worker pool:
`exitLoop` — a worker at the check observes `task_queue.empty()` true
and leaves the loop (line 42 test fails);
`getJob` — a worker at the check observes the queue non-empty and
dequeues the head (`task_queue.get()`, line 43);
`finishOk` — a busy worker's attempt succeeds and it returns to the
check;
`finishFail` — a busy worker's attempt fails, so it re-enqueues the job
(line 53) and returns to the check. -/
inductive WStep : WState → WState → Prop where
  | exitLoop (ws : List WPhase) (i : Nat)
      (hw : ws[i]? = some WPhase.check) :
      WStep ⟨[], ws⟩ ⟨[], ws.set i WPhase.stopped⟩
  | getJob (j : Nat) (rest : List Nat) (ws : List WPhase) (i : Nat)
      (hw : ws[i]? = some WPhase.check) :
      WStep ⟨j :: rest, ws⟩ ⟨rest, ws.set i (WPhase.busy j)⟩
  | finishOk (q : List Nat) (ws : List WPhase) (i j : Nat)
      (hw : ws[i]? = some (WPhase.busy j)) :
      WStep ⟨q, ws⟩ ⟨q, ws.set i WPhase.check⟩
  | finishFail (q : List Nat) (ws : List WPhase) (i j : Nat)
      (hw : ws[i]? = some (WPhase.busy j)) :
      WStep ⟨q, ws⟩ ⟨q ++ [j], ws.set i WPhase.check⟩

/-- Pool states reachable from a given initial state (seeded queue, all
workers at the top-of-loop check). -/
inductive WReachable (init : WState) : WState → Prop where
  | refl : WReachable init init
  | step {s t : WState} : WReachable init s → WStep s t →
      WReachable init t

/-- C8 counterexample: two workers, one job.  Worker 0 dequeues the only
job; worker 1 observes the transiently empty queue and exits its loop;
worker 0's attempt then fails and re-enqueues the job.  The reached
state has worker 1 terminated while the queue is non-empty again — so a
worker's loop can exit although the queue did not stay empty, refuting
the claim. -/
theorem C8_counterexample :
    WReachable ⟨[0], [WPhase.check, WPhase.check]⟩
        ⟨[0], [WPhase.check, WPhase.stopped]⟩ ∧
      (⟨[0], [WPhase.check, WPhase.stopped]⟩ : WState).workers[1]? =
        some WPhase.stopped ∧
      (⟨[0], [WPhase.check, WPhase.stopped]⟩ : WState).queue ≠ [] := by
  refine ⟨?_, rfl, by decide⟩
  have h1 : WStep ⟨[0], [WPhase.check, WPhase.check]⟩
      ⟨[], [WPhase.busy 0, WPhase.check]⟩ :=
    WStep.getJob 0 [] [WPhase.check, WPhase.check] 0 rfl
  have h2 : WStep ⟨[], [WPhase.busy 0, WPhase.check]⟩
      ⟨[], [WPhase.busy 0, WPhase.stopped]⟩ :=
    WStep.exitLoop [WPhase.busy 0, WPhase.check] 1 rfl
  have h3 : WStep ⟨[], [WPhase.busy 0, WPhase.stopped]⟩
      ⟨[0], [WPhase.check, WPhase.stopped]⟩ :=
    WStep.finishFail [] [WPhase.busy 0, WPhase.stopped] 0 0 rfl
  exact WReachable.step (WReachable.step (WReachable.step WReachable.refl h1) h2) h3

/-- C8 amended: a worker's loop exits exactly when the worker observes
the backing queue empty at its top-of-loop check — the check is
instantaneous, so the exit can happen during a transient emptiness and
is not deferred until the queue stays empty.  Formally: any step that
turns a worker's phase into `stopped` starts from a state where that
worker was at the check and the queue was (at that instant) empty. -/
theorem C8_amended_exit_on_observed_empty (s t : WState) (i : Nat)
    (h : WStep s t)
    (h1 : s.workers[i]? ≠ some WPhase.stopped)
    (h2 : t.workers[i]? = some WPhase.stopped) :
    s.queue = [] ∧ s.workers[i]? = some WPhase.check := by
  cases h with
  | exitLoop ws i' hw =>
    by_cases hii : i' = i
    · subst hii
      exact ⟨rfl, hw⟩
    · rw [List.getElem?_set_ne hii] at h2
      exact absurd h2 h1
  | getJob j rest ws i' hw =>
    by_cases hii : i' = i
    · subst hii
      have hlt : i' < ws.length := by
        obtain ⟨hl, -⟩ := List.getElem?_eq_some_iff.mp hw
        exact hl
      rw [List.getElem?_set_self hlt] at h2
      exact absurd h2 (by simp)
    · rw [List.getElem?_set_ne hii] at h2
      exact absurd h2 h1
  | finishOk q ws i' j hw =>
    by_cases hii : i' = i
    · subst hii
      have hlt : i' < ws.length := by
        obtain ⟨hl, -⟩ := List.getElem?_eq_some_iff.mp hw
        exact hl
      rw [List.getElem?_set_self hlt] at h2
      exact absurd h2 (by simp)
    · rw [List.getElem?_set_ne hii] at h2
      exact absurd h2 h1
  | finishFail q ws i' j hw =>
    by_cases hii : i' = i
    · subst hii
      have hlt : i' < ws.length := by
        obtain ⟨hl, -⟩ := List.getElem?_eq_some_iff.mp hw
        exact hl
      rw [List.getElem?_set_self hlt] at h2
      exact absurd h2 (by simp)
    · rw [List.getElem?_set_ne hii] at h2
      exact absurd h2 h1

/-- Witness for the amended C8: worker 1 exits from a state whose queue
it observed empty. -/
theorem C8_amended_witness :
    (⟨[], [WPhase.busy 0, WPhase.check]⟩ : WState).queue = [] ∧
      (⟨[], [WPhase.busy 0, WPhase.check]⟩ : WState).workers[1]? =
        some WPhase.check :=
  C8_amended_exit_on_observed_empty
    ⟨[], [WPhase.busy 0, WPhase.check]⟩
    ⟨[], [WPhase.busy 0, WPhase.stopped]⟩ 1
    (WStep.exitLoop [WPhase.busy 0, WPhase.check] 1 rfl)
    (by decide) rfl

/-! ## run_program (benchmark.py lines 9-38)

`run_program` first handles the profiling directory (lines 10-14,
OUTSIDE the `try`): if `profiling_dir` is non-empty it calls
`os.makedirs(profiling_dir, exist_ok=True)` and sets
`profiling_flag = "-d" + profiling_dir`; otherwise `profiling_flag`
stays `""`.  Then, inside a `try`, it opens `output_file` for writing,
prints a running message, launches the subprocess with the argument
list `[program_path, config, matrix, "-t" + str(numTiles),
profiling_flag]`, prints a finished message, and returns `True` iff the
return code is 0, printing the captured stderr otherwise; any exception
in the `try` body is caught and turns into `False`.

The environment is passed in explicitly: the outcome of `os.makedirs`,
of `open(output_file, "w")` and of `subprocess.run` are parameters
(`Except` values: `.error` models a raised exception). -/

/-- Result of a completed `subprocess.run`: return code and captured
standard error. -/
structure RunResult where
  returncode : Int
  stderr : String
  deriving DecidableEq, Repr

/-- What `run_program` produces when it returns normally: the boolean
result and the lines it printed. -/
structure RPOut where
  success : Bool
  logs : List String
  deriving DecidableEq, Repr

/-- The `profiling_flag` computed in benchmark.py lines 11-14: `""` when
no profiling directory is given, otherwise `"-d" + profiling_dir`. -/
def profilingFlag (profiling_dir : String) : String :=
  if profiling_dir ≠ "" then "-d" ++ profiling_dir else ""

/-- The argument list passed to `subprocess.run` (benchmark.py lines
21-27): `[program_path, config, matrix, "-t" + str(numTiles),
profiling_flag]`.  Note the list always has five entries; when no
profiling directory is given the fifth entry is the empty string. -/
def buildArgs (program_path config matrix : String) (numTiles : Nat)
    (profiling_dir : String) : List String :=
  [program_path, config, matrix, "-t" ++ toString numTiles,
    profilingFlag profiling_dir]

/-- Embeds `run_program` (benchmark.py lines 9-38).  `mkdirResult`,
`openResult` and `runResult` are the outcomes of `os.makedirs`,
`open(output_file, "w")` and `subprocess.run`; an overall `.error` means
the exception escapes `run_program` (the `os.makedirs` call sits before
the `try` block, so its exception is not caught). -/
def run_program (config matrix profiling_dir : String) (numTiles : Nat)
    (mkdirResult : Except String Unit)
    (openResult : Except String Unit)
    (runResult : Except String RunResult) : Except String RPOut :=
  match (if profiling_dir ≠ "" then mkdirResult else Except.ok ()) with
  | Except.error e => Except.error e
  | Except.ok () =>
    match openResult with
    | Except.error e =>
      Except.ok ⟨false,
        ["Exception for " ++ config ++ " " ++ matrix ++ ": " ++ e]⟩
    | Except.ok () =>
      let runningLog := "Running " ++ config ++ " " ++ matrix ++
        " with " ++ toString numTiles ++ " tiles"
      match runResult with
      | Except.error e =>
        Except.ok ⟨false,
          [runningLog,
            "Exception for " ++ config ++ " " ++ matrix ++ ": " ++ e]⟩
      | Except.ok r =>
        let finishedLog := "Finished " ++ config ++ " " ++ matrix
        if r.returncode ≠ 0 then
          Except.ok ⟨false,
            [runningLog, finishedLog,
              "Error for " ++ config ++ " " ++ matrix ++ ": " ++ r.stderr]⟩
        else
          Except.ok ⟨true, [runningLog, finishedLog]⟩

/-- C5: `run_program` returns `True` iff no exception occurred on the
way to the launch and the external process exited with code 0; and
whenever it returns `False` because of a nonzero exit code (the launch
itself succeeded), the captured standard-error text appears in the log
output. -/
theorem C5_success_iff_exit_zero (config matrix profiling_dir : String)
    (numTiles : Nat) (mk op : Except String Unit)
    (rr : Except String RunResult) :
    ((∃ out, run_program config matrix profiling_dir numTiles mk op rr =
          Except.ok out ∧ out.success = true) ↔
        ((profiling_dir = "" ∨ mk = Except.ok ()) ∧ op = Except.ok () ∧
          ∃ r, rr = Except.ok r ∧ r.returncode = 0)) ∧
      (∀ out r, op = Except.ok () → rr = Except.ok r →
        r.returncode ≠ 0 →
        run_program config matrix profiling_dir numTiles mk op rr =
          Except.ok out →
        out.success = false ∧
          ("Error for " ++ config ++ " " ++ matrix ++ ": " ++ r.stderr)
            ∈ out.logs) := by
  by_cases hpd : profiling_dir = "" <;>
    rcases mk with e1 | ⟨⟩ <;> rcases op with e2 | ⟨⟩ <;>
      rcases rr with e3 | r <;>
        first
          | (by_cases hrc : r.returncode = 0 <;>
              simp [run_program, hpd, hrc])
          | simp [run_program, hpd]

/-- Witness for C5 at a successful concrete run. -/
theorem C5_success_iff_exit_zero_witness :
    ((∃ out, run_program "cfg" "mat" "" 5888 (Except.ok ()) (Except.ok ())
          (Except.ok ⟨0, ""⟩) = Except.ok out ∧ out.success = true) ↔
        ((("" : String) = "" ∨
            (Except.ok () : Except String Unit) = Except.ok ()) ∧
          (Except.ok () : Except String Unit) = Except.ok () ∧
          ∃ r, (Except.ok ⟨0, ""⟩ : Except String RunResult) =
              Except.ok r ∧ r.returncode = 0)) ∧
      (∀ out r, (Except.ok () : Except String Unit) = Except.ok () →
        (Except.ok ⟨0, ""⟩ : Except String RunResult) = Except.ok r →
        r.returncode ≠ 0 →
        run_program "cfg" "mat" "" 5888 (Except.ok ()) (Except.ok ())
          (Except.ok ⟨0, ""⟩) = Except.ok out →
        out.success = false ∧
          ("Error for " ++ "cfg" ++ " " ++ "mat" ++ ": " ++ r.stderr)
            ∈ out.logs) :=
  C5_success_iff_exit_zero "cfg" "mat" "" 5888 (Except.ok ())
    (Except.ok ()) (Except.ok ⟨0, ""⟩)

/-- C6 counterexample: with no profiling directory the built argument
list is NOT the four-element form — `profiling_flag` stays `""` and is
still put into the list (benchmark.py line 26), so the process receives
a fifth, empty argument. -/
theorem C6_counterexample :
    (buildArgs "prog" "cfg" "-mmat" 1472 "").length = 5 ∧
      buildArgs "prog" "cfg" "-mmat" 1472 "" ≠
        ["prog", "cfg", "-mmat", "-t1472"] ∧
      (buildArgs "prog" "cfg" "-mmat" 1472 "").getLast? = some "" := by
  refine ⟨rfl, by decide, rfl⟩

/-- C6 amended: the argument vector is always the five entries
`<program> <configIdentifier> <matrixSpec> -t<tileCount> <flag>`, where
the flag is `-d<profilingDir>` when a profiling directory is specified
and the empty string (an empty fifth argument, not an omitted one)
when none is. -/
theorem C6_amended_argv (program config matrix : String) (n : Nat)
    (pd : String) :
    (pd ≠ "" → buildArgs program config matrix n pd =
        [program, config, matrix, "-t" ++ toString n, "-d" ++ pd]) ∧
      (pd = "" → buildArgs program config matrix n pd =
        [program, config, matrix, "-t" ++ toString n, ""]) := by
  constructor <;> intro h <;> simp [buildArgs, profilingFlag, h]

/-- Witness for the amended C6, one instantiation of each branch. -/
theorem C6_amended_argv_witness :
    buildArgs "p" "c" "m" 1 "x" =
        ["p", "c", "m", "-t" ++ toString 1, "-dx"] ∧
      buildArgs "p" "c" "m" 1 "" =
        ["p", "c", "m", "-t" ++ toString 1, ""] :=
  ⟨(C6_amended_argv "p" "c" "m" 1 "x").1 (by decide),
    (C6_amended_argv "p" "c" "m" 1 "").2 rfl⟩

/-- C9 counterexample: `os.makedirs` runs before the `try` block
(benchmark.py lines 12-13 vs 16), so an exception raised while creating
the profiling directory escapes `run_program` instead of becoming a
`False` return — `run_program` is not total with respect to
exceptions raised while preparing the job. -/
theorem C9_counterexample :
    run_program "cfg" "mat" "profdir" 5888
        (Except.error "PermissionError") (Except.ok ())
        (Except.ok ⟨0, ""⟩) = Except.error "PermissionError" := by
  simp [run_program]

/-- C9 amended: every exception raised inside the `try` block — the
`open(output_file, "w")` and the `subprocess.run` launch — is caught and
converted into a `False` return; only an exception from the
profiling-directory creation, which precedes the `try`, escapes. -/
theorem C9_amended_try_exceptions_caught (config matrix pd : String)
    (n : Nat) (mk : Except String Unit) (e : String)
    (rr : Except String RunResult) :
    (pd = "" ∨ mk = Except.ok ()) →
      ((∃ out, run_program config matrix pd n mk (Except.error e) rr =
            Except.ok out ∧ out.success = false) ∧
        (∀ e2, ∃ out, run_program config matrix pd n mk (Except.ok ())
            (Except.error e2) = Except.ok out ∧ out.success = false)) := by
  intro hmk
  by_cases hpd : pd = "" <;> rcases mk with e1 | ⟨⟩ <;>
    simp_all [run_program]

/-- Witness for the amended C9: a failed `open` and a failed launch,
both converted to `False`. -/
theorem C9_amended_witness :
    (∃ out, run_program "c" "m" "" 1 (Except.ok ())
          (Except.error "open failed") (Except.ok ⟨0, ""⟩) =
        Except.ok out ∧ out.success = false) ∧
      (∀ e2, ∃ out, run_program "c" "m" "" 1 (Except.ok ())
          (Except.ok ()) (Except.error e2) =
        Except.ok out ∧ out.success = false) :=
  C9_amended_try_exceptions_caught "c" "m" "" 1 (Except.ok ())
    "open failed" (Except.ok ⟨0, ""⟩) (Or.inl rfl)

/-! ## Profiling-directory creation (benchmark.py lines 10-14) -/

/-- Semantics of `os.makedirs(dir, exist_ok)` over a filesystem modelled
as the list of existing directories: with `exist_ok = true` it succeeds
whether or not `dir` exists; with `exist_ok = false` an existing `dir`
raises `FileExistsError`. -/
def makedirs (fs : List String) (dir : String) (exist_ok : Bool) :
    Except String (List String) :=
  if dir ∈ fs then
    if exist_ok then Except.ok fs
    else Except.error ("FileExistsError: " ++ dir)
  else Except.ok (dir :: fs)

/-- The profiling-directory prologue of `run_program` (benchmark.py
lines 10-14): when `profiling_dir` is `""` the `if profiling_dir:` test
is false and nothing is created; otherwise
`os.makedirs(profiling_dir, exist_ok=True)` runs.  The boolean in the
result records whether `os.makedirs` was called at all. -/
def prepareProfilingDir (fs : List String) (profiling_dir : String) :
    Except String (List String × Bool) :=
  if profiling_dir ≠ "" then
    (makedirs fs profiling_dir true).map (fun fs2 => (fs2, true))
  else Except.ok (fs, false)

/-- C10: with an empty profiling directory no creation happens at all;
with a non-empty one the creation is performed and succeeds even when
the directory is already present (left over from a prior failed
attempt), leaving the filesystem unchanged in that case — a retry never
fails because of the earlier attempt's directory. -/
theorem C10_profiling_dir_idempotent (fs : List String) (pd : String) :
    prepareProfilingDir fs "" = Except.ok (fs, false) ∧
      (pd ≠ "" → ∃ fs2, prepareProfilingDir fs pd =
          Except.ok (fs2, true) ∧ pd ∈ fs2) ∧
      (pd ≠ "" → pd ∈ fs →
        prepareProfilingDir fs pd = Except.ok (fs, true)) := by
  refine ⟨by simp [prepareProfilingDir], ?_, ?_⟩
  · intro hpd
    by_cases hin : pd ∈ fs
    · exact ⟨fs, by simp [prepareProfilingDir, makedirs, hpd, hin,
        Except.map], hin⟩
    · exact ⟨pd :: fs, by simp [prepareProfilingDir, makedirs, hpd, hin,
        Except.map], by simp⟩
  · intro hpd hin
    simp [prepareProfilingDir, makedirs, hpd, hin, Except.map]

/-- Witness for C10 at a filesystem already holding the directory. -/
theorem C10_profiling_dir_witness :
    prepareProfilingDir ["d"] "" = Except.ok (["d"], false) ∧
      prepareProfilingDir ["d"] "d" = Except.ok (["d"], true) :=
  ⟨(C10_profiling_dir_idempotent ["d"] "d").1,
    (C10_profiling_dir_idempotent ["d"] "d").2.2 (by decide) (by decide)⟩
